import Mathlib

/-!
# ofxOrbbecAstra: the depth lookup table (`src/DepthLUT.h`)

A shallow embedding of `class DepthLookupTable`: the clip range, the 1D lookup
table built by `generate()`, the dirty flag, the offscreen render target and the
`process()` entry point.

Arithmetic: the C++ code computes in IEEE single precision (`float`).  The
embedding computes the same expressions in exact rational arithmetic (`ℚ`), so
every statement below is about the exact value of the expression the code
evaluates, not about its rounding.  The clip bounds are `unsigned short`; they
are natural numbers here and no arithmetic is done on them before they are
converted to a fraction.
-/

namespace DepthLUT

/-! ## openFrameworks collaborators -/

/-- The constant `FLT_EPSILON` of `<cfloat>` for IEEE single precision, `2⁻²³`. -/
def FLT_EPSILON : ℚ := 1 / 8388608

/-- Modelled from the spec: `ofMap` is the openFrameworks linear remap (the spec's
`linearRemap(x, from=[inputMin, inputMax], to=[outputMin, outputMax], clamped)`),
a library function that is not part of this repository's sources.  It maps
`value` affinely so that `inputMin ↦ outputMin` and `inputMax ↦ outputMax`; with
`clamp` the result is brought back to the nearest end of the output range.  A
source interval of zero width yields `outputMin`. -/
def ofMap (value inputMin inputMax outputMin outputMax : ℚ) (clamp : Bool) : ℚ :=
  if |inputMin - inputMax| < FLT_EPSILON then outputMin
  else
    let outVal := (value - inputMin) / (inputMax - inputMin) * (outputMax - outputMin) + outputMin
    if clamp then
      if outputMax < outputMin then
        if outVal < outputMax then outputMax
        else if outVal > outputMin then outputMin
        else outVal
      else
        if outVal > outputMax then outputMax
        else if outVal < outputMin then outputMin
        else outVal
    else outVal

/-- Modelled from the spec: an `ofTexture` as far as `DepthLookupTable` observes
it: whether it is allocated, its size, and the value stored in its first channel
at each pixel (for a depth texture: raw depth / 65535).  The type is declared by
openFrameworks, not by this repository. -/
structure ofTexture where
  bAllocated : Bool
  width : Nat
  height : Nat
  pixels : Nat → Nat → ℚ

/-- The texture of a default-constructed (unallocated) openFrameworks object. -/
def ofTexture.empty : ofTexture :=
  { bAllocated := false, width := 0, height := 0, pixels := fun _ _ => 0 }

/-- An allocated `w x h` texture whose pixels all hold the value `v`. -/
def ofTexture.uniform (w h : Nat) (v : ℚ) : ofTexture :=
  { bAllocated := true, width := w, height := h, pixels := fun _ _ => v }

/-- Modelled from the spec: the offscreen render target `ofFbo`, an
openFrameworks type, reduced to its colour texture.  Requests for a surface with
a zero side are outside what the spec describes and are not given a special
meaning here. -/
structure ofFbo where
  tex : ofTexture

/-- Modelled from the spec: `ofFbo::isAllocated()`, whether the render target holds a surface. -/
def ofFbo.isAllocated (f : ofFbo) : Bool := f.tex.bAllocated

/-- Modelled from the spec: `ofFbo::getWidth()`, the width of the surface. -/
def ofFbo.getWidth (f : ofFbo) : Nat := f.tex.width

/-- Modelled from the spec: `ofFbo::getHeight()`, the height of the surface. -/
def ofFbo.getHeight (f : ofFbo) : Nat := f.tex.height

/-- Modelled from the spec: `ofFbo::getTexture()`, the texture the render target draws into. -/
def ofFbo.getTexture (f : ofFbo) : ofTexture := f.tex

/-- Modelled from the spec: `ofFbo::clear()` releases the surface. -/
def ofFbo.clear (_f : ofFbo) : ofFbo := { tex := ofTexture.empty }

/-- Modelled from the spec: `ofFbo::allocate(w, h, GL_RGB)` replaces the surface by a fresh
one of the requested size. -/
def ofFbo.allocate (_f : ofFbo) (w h : Nat) : ofFbo :=
  { tex := { bAllocated := true, width := w, height := h, pixels := fun _ _ => 0 } }

/-- Modelled from the spec: the effect of `ofClear( 0, 0 )` between `begin()` and
`end()`: every pixel of the bound surface becomes 0. -/
def ofFbo.ofClear (f : ofFbo) : ofFbo :=
  { tex := { f.tex with pixels := fun _ _ => 0 } }

/-! ## `DepthLookupTable` -/

/-- The local `struct Rgb` of `generate()`: three equal channels. -/
structure Rgb where
  r : ℚ
  g : ℚ
  b : ℚ
  deriving DecidableEq

/-- The constructor `Rgb( float v ) : r( v ), g( v ), b( v )`. -/
def Rgb.ofVal (v : ℚ) : Rgb := { r := v, g := v, b := v }

/-- The data members of `DepthLookupTable` that the statements below observe.
`mLUT` is the content uploaded to the 1D texture `mLUTTex`; the quad and the
shader objects are not modelled. -/
structure DepthLookupTable where
  mFbo : ofFbo
  mNearMM : Nat
  mFarMM : Nat
  mLUT : List Rgb
  mLUTSize : Nat
  mbLUTDirty : Bool

/-- The literal `0.0000001f` of `generate()`. -/
def epsilon : ℚ := 1 / 10000000

/-- First remap of the loop body of `generate()`:
`ofMap( i, 1, mLUTSize - 1, 0, 65355, true )`. -/
def inputVal (lutSize i : Nat) : ℚ :=
  ofMap (i : ℚ) 1 ((lutSize : ℚ) - 1) 0 65355 true

/-- Second remap of the loop body of `generate()`:
`ofMap( inputVal, mFarMM, mNearMM, 0.0000001f, 1.f, true )`. -/
def outputVal (lutSize nearMM farMM i : Nat) : ℚ :=
  ofMap (inputVal lutSize i) (farMM : ℚ) (nearMM : ℚ) epsilon 1 true

/-- The vector `lut` built by `generate()`: `Rgb( 0. )` is pushed first, then one
entry for each `i` with `1 ≤ i < mLUTSize`, in order. -/
def lutData (lutSize nearMM farMM : Nat) : List Rgb :=
  Rgb.ofVal 0 ::
    (List.range' 1 (lutSize - 1)).map (fun i => Rgb.ofVal (outputVal lutSize nearMM farMM i))

/-- Member function `DepthLookupTable::generate()`: build the table from the stored clip range,
upload it, clear the dirty flag. -/
def generate (s : DepthLookupTable) : DepthLookupTable :=
  { s with mLUT := lutData s.mLUTSize s.mNearMM s.mFarMM, mbLUTDirty := false }

/-- The constructor `DepthLookupTable()`: the member initialisers, then the call
to `generate()` in the constructor body. -/
def construct : DepthLookupTable :=
  generate
    { mFbo := { tex := ofTexture.empty }
      mNearMM := 1
      mFarMM := 65535
      mLUT := []
      mLUTSize := 4096
      mbLUTDirty := true }

/-- Member function `setNearMM`: `mNearMM = nearMM > 1 ? nearMM : 1; mbLUTDirty = true;`. -/
def setNearMM (s : DepthLookupTable) (nearMM : Nat) : DepthLookupTable :=
  { s with mNearMM := if nearMM > 1 then nearMM else 1, mbLUTDirty := true }

/-- Member function `setFarMM`: `mFarMM = farMM; mbLUTDirty = true;`. -/
def setFarMM (s : DepthLookupTable) (farMM : Nat) : DepthLookupTable :=
  { s with mFarMM := farMM, mbLUTDirty := true }

/-- Member function `setRangeMM`: `setNearMM( nearMM ); setFarMM( farMM );`. -/
def setRangeMM (s : DepthLookupTable) (nearMM farMM : Nat) : DepthLookupTable :=
  setFarMM (setNearMM s nearMM) farMM

/-- Member function `DepthLookupTable::allocate(prototype)`: release the render target when the
prototype is unallocated, reallocate it when it is missing or of another size,
keep it otherwise. -/
def allocate (s : DepthLookupTable) (prototype : ofTexture) : DepthLookupTable :=
  if !prototype.bAllocated then
    { s with mFbo := s.mFbo.clear }
  else if !s.mFbo.isAllocated || s.mFbo.getWidth != prototype.width
      || s.mFbo.getHeight != prototype.height then
    { s with mFbo := s.mFbo.allocate prototype.width prototype.height }
  else s

/-- Member function `DepthLookupTable::process(depthInput)`: reconcile the render target,
regenerate the table when dirty, and, when the render target is allocated, bind
it, clear it and unbind it.  The result is the new state and the returned
`mFbo.getTexture()`. -/
def process (s : DepthLookupTable) (depthInput : ofTexture) : DepthLookupTable × ofTexture :=
  let s1 := allocate s depthInput
  let s2 := if s1.mbLUTDirty then generate s1 else s1
  let s3 := if s2.mFbo.isAllocated then { s2 with mFbo := s2.mFbo.ofClear } else s2
  (s3, s3.mFbo.getTexture)

/-- An `unsigned short` value. -/
def isUShort (v : Nat) : Prop := v < 65536

instance (v : Nat) : Decidable (isUShort v) :=
  inferInstanceAs (Decidable (v < 65536))

/-- The states a client can reach: construction followed by any sequence of
calls to the public member functions. -/
inductive Reachable : DepthLookupTable → Prop
  | construct : Reachable construct
  | setNearMM (s : DepthLookupTable) (v : Nat) :
      Reachable s → isUShort v → Reachable (setNearMM s v)
  | setFarMM (s : DepthLookupTable) (v : Nat) :
      Reachable s → isUShort v → Reachable (setFarMM s v)
  | setRangeMM (s : DepthLookupTable) (n f : Nat) :
      Reachable s → isUShort n → isUShort f → Reachable (setRangeMM s n f)
  | process (s : DepthLookupTable) (input : ofTexture) :
      Reachable s → Reachable (process s input).1

/-! ## Auxiliary facts -/

theorem ofMap_clamped_bounds (value inputMin inputMax outputMin outputMax : ℚ)
    (h : outputMin ≤ outputMax) :
    outputMin ≤ ofMap value inputMin inputMax outputMin outputMax true ∧
      ofMap value inputMin inputMax outputMin outputMax true ≤ outputMax := by
  unfold ofMap
  simp only [if_true]
  split_ifs <;> constructor <;> linarith

theorem ofMap_clamped_eq (value inputMin inputMax outputMin outputMax : ℚ)
    (h : outputMin ≤ outputMax) (hne : ¬ |inputMin - inputMax| < FLT_EPSILON) :
    ofMap value inputMin inputMax outputMin outputMax true =
      max outputMin (min outputMax
        ((value - inputMin) / (inputMax - inputMin) * (outputMax - outputMin) + outputMin)) := by
  unfold ofMap
  simp only [if_true, if_neg hne]
  split_ifs <;> simp only [max_def, min_def] <;> split_ifs <;> linarith

theorem lutData_length (lutSize nearMM farMM : Nat) (h : 1 ≤ lutSize) :
    (lutData lutSize nearMM farMM).length = lutSize := by
  simp [lutData]
  omega

theorem lutData_get (lutSize nearMM farMM i : Nat) (h1 : 1 ≤ i) (h2 : i < lutSize) :
    (lutData lutSize nearMM farMM)[i]? = some (Rgb.ofVal (outputVal lutSize nearMM farMM i)) := by
  obtain ⟨k, rfl⟩ : ∃ k, i = k + 1 := ⟨i - 1, by omega⟩
  have hk : k < lutSize - 1 := by omega
  simp [lutData, List.getElem?_range' , hk, Nat.add_comm]

theorem ofMap_clamped_mono (v w inputMin inputMax outputMin outputMax : ℚ)
    (hout : outputMin ≤ outputMax) (hin : inputMin ≤ inputMax) (hvw : v ≤ w) :
    ofMap v inputMin inputMax outputMin outputMax true ≤
      ofMap w inputMin inputMax outputMin outputMax true := by
  by_cases hne : |inputMin - inputMax| < FLT_EPSILON
  · simp [ofMap, hne]
  · rw [ofMap_clamped_eq v _ _ _ _ hout hne, ofMap_clamped_eq w _ _ _ _ hout hne]
    apply max_le_max le_rfl
    apply min_le_min le_rfl
    have h1 : (v - inputMin) / (inputMax - inputMin) ≤ (w - inputMin) / (inputMax - inputMin) :=
      div_le_div_of_nonneg_right (by linarith) (by linarith)
    have h2 := mul_le_mul_of_nonneg_right h1 (show (0 : ℚ) ≤ outputMax - outputMin by linarith)
    linarith

theorem ofMap_clamped_anti (v w inputMin inputMax outputMin outputMax : ℚ)
    (hout : outputMin ≤ outputMax) (hin : inputMax ≤ inputMin) (hvw : v ≤ w) :
    ofMap w inputMin inputMax outputMin outputMax true ≤
      ofMap v inputMin inputMax outputMin outputMax true := by
  by_cases hne : |inputMin - inputMax| < FLT_EPSILON
  · simp [ofMap, hne]
  · rw [ofMap_clamped_eq v _ _ _ _ hout hne, ofMap_clamped_eq w _ _ _ _ hout hne]
    apply max_le_max le_rfl
    apply min_le_min le_rfl
    have h1 : (w - inputMin) / (inputMax - inputMin) ≤ (v - inputMin) / (inputMax - inputMin) :=
      div_le_div_of_nonpos_of_le (by linarith) (by linarith)
    have h2 := mul_le_mul_of_nonneg_right h1 (show (0 : ℚ) ≤ outputMax - outputMin by linarith)
    linarith

theorem epsilon_pos : 0 < epsilon := by
  norm_num [epsilon]

theorem epsilon_le_one : epsilon ≤ 1 := by
  norm_num [epsilon]

theorem inputVal_mono (lutSize i j : Nat) (h : 2 ≤ lutSize) (hij : i ≤ j) :
    inputVal lutSize i ≤ inputVal lutSize j := by
  unfold inputVal
  apply ofMap_clamped_mono _ _ _ _ _ _ (by norm_num)
  · have : (2 : ℚ) ≤ (lutSize : ℚ) := by exact_mod_cast h
    linarith
  · exact_mod_cast hij

theorem outputVal_bounds (lutSize nearMM farMM i : Nat) :
    epsilon ≤ outputVal lutSize nearMM farMM i ∧ outputVal lutSize nearMM farMM i ≤ 1 :=
  ofMap_clamped_bounds _ _ _ _ _ epsilon_le_one

theorem outputVal_anti (lutSize nearMM farMM i j : Nat) (h : 2 ≤ lutSize)
    (hnf : nearMM ≤ farMM) (hij : i ≤ j) :
    outputVal lutSize nearMM farMM j ≤ outputVal lutSize nearMM farMM i := by
  unfold outputVal
  apply ofMap_clamped_anti _ _ _ _ _ _ epsilon_le_one
  · exact_mod_cast hnf
  · exact inputVal_mono lutSize i j h hij

theorem allocate_fields (s : DepthLookupTable) (t : ofTexture) :
    (allocate s t).mNearMM = s.mNearMM ∧ (allocate s t).mFarMM = s.mFarMM ∧
      (allocate s t).mLUT = s.mLUT ∧ (allocate s t).mLUTSize = s.mLUTSize ∧
      (allocate s t).mbLUTDirty = s.mbLUTDirty := by
  unfold allocate
  split_ifs <;> simp

theorem process_fields (s : DepthLookupTable) (t : ofTexture) :
    (process s t).1.mNearMM = s.mNearMM ∧ (process s t).1.mFarMM = s.mFarMM ∧
      (process s t).1.mLUTSize = s.mLUTSize ∧ (process s t).1.mbLUTDirty = false ∧
      (process s t).1.mLUT =
        (if s.mbLUTDirty then lutData s.mLUTSize s.mNearMM s.mFarMM else s.mLUT) := by
  obtain ⟨h1, h2, h3, h4, h5⟩ := allocate_fields s t
  unfold process
  cases hd : s.mbLUTDirty <;> rw [hd] at h5 <;> simp only [h5] <;>
    split_ifs <;> simp [generate, h1, h2, h3, h4, h5]

theorem reachable_lutSize (s : DepthLookupTable) (h : Reachable s) : s.mLUTSize = 4096 := by
  induction h with
  | construct => rfl
  | setNearMM s v _ _ ih => exact ih
  | setFarMM s v _ _ ih => exact ih
  | setRangeMM s n f _ _ _ ih => exact ih
  | process s input _ ih => rw [(process_fields s input).2.2.1]; exact ih

theorem reachable_clean_lut (s : DepthLookupTable) (h : Reachable s) :
    s.mbLUTDirty = false → s.mLUT = lutData s.mLUTSize s.mNearMM s.mFarMM := by
  induction h with
  | construct => intro _; rfl
  | setNearMM s v _ _ _ => intro hd; simp [setNearMM] at hd
  | setFarMM s v _ _ _ => intro hd; simp [setFarMM] at hd
  | setRangeMM s n f _ _ _ _ => intro hd; simp [setRangeMM, setFarMM] at hd
  | process s input _ ih =>
    intro _
    obtain ⟨h1, h2, h3, _, h5⟩ := process_fields s input
    rw [h1, h2, h3, h5]
    cases hd : s.mbLUTDirty
    · simpa using ih hd
    · simp

theorem reachable_near_pos (s : DepthLookupTable) (h : Reachable s) : 1 ≤ s.mNearMM := by
  induction h with
  | construct => simp [construct, generate]
  | setNearMM s v _ _ _ => simp only [setNearMM]; split_ifs <;> omega
  | setFarMM s v _ _ ih => exact ih
  | setRangeMM s n f _ _ _ _ => simp only [setRangeMM, setFarMM, setNearMM]; split_ifs <;> omega
  | process s input _ ih => rw [(process_fields s input).1]; exact ih

/-! ## The lookup table built by `generate()` -/

/-- C2: for every clip range, the table built by `generate()` with the
constructor's `mLUTSize = 4096` has exactly 4096 entries and its entry at index 0
is `r = g = b = 0`, whatever `mNearMM` and `mFarMM` are. -/
theorem generate_size_and_null_entry (s : DepthLookupTable) (hsize : s.mLUTSize = 4096) :
    (generate s).mLUT.length = 4096 ∧
      (generate s).mLUT[0]? = some { r := 0, g := 0, b := 0 } := by
  constructor
  · simp only [generate, hsize]
    exact lutData_length 4096 _ _ (by norm_num)
  · simp [generate, lutData, Rgb.ofVal]

theorem generate_size_and_null_entry_witness :
    construct.mLUTSize = 4096 ∧
      ((generate construct).mLUT.length = 4096 ∧
        (generate construct).mLUT[0]? = some { r := 0, g := 0, b := 0 }) :=
  ⟨rfl, generate_size_and_null_entry construct rfl⟩

/-- C3: for every clip range (inverted and degenerate ones included) and every
index `1 ≤ i ≤ 4095`, `generate()` stores an entry at `i`, its three channels are
equal and lie in `[epsilon, 1]`; the entry is strictly positive and differs from
the entry 0 held by index 0.  `generate` is a total function of the state. -/
theorem generate_entry_in_range (s : DepthLookupTable) (i : Nat)
    (hsize : s.mLUTSize = 4096) (h1 : 1 ≤ i) (h2 : i ≤ 4095) :
    ∃ c : Rgb, (generate s).mLUT[i]? = some c ∧ c.g = c.r ∧ c.b = c.r ∧
      epsilon ≤ c.r ∧ c.r ≤ 1 ∧ 0 < c.r ∧ (generate s).mLUT[0]? ≠ some c := by
  obtain ⟨hlo, hhi⟩ := outputVal_bounds 4096 s.mNearMM s.mFarMM i
  have hpos : 0 < outputVal 4096 s.mNearMM s.mFarMM i := lt_of_lt_of_le epsilon_pos hlo
  refine ⟨Rgb.ofVal (outputVal 4096 s.mNearMM s.mFarMM i), ?_, rfl, rfl, hlo, hhi, hpos, ?_⟩
  · simp only [generate, hsize]
    exact lutData_get 4096 _ _ i h1 (by omega)
  · intro h
    simp only [generate, lutData, List.getElem?_cons_zero, Option.some.injEq] at h
    have hr := congrArg Rgb.r h
    simp only [Rgb.ofVal] at hr
    linarith

theorem generate_entry_in_range_witness :
    ∃ c : Rgb, (generate (setRangeMM construct 4000 1000)).mLUT[4095]? = some c ∧
      c.g = c.r ∧ c.b = c.r ∧ epsilon ≤ c.r ∧ c.r ≤ 1 ∧ 0 < c.r ∧
      (generate (setRangeMM construct 4000 1000)).mLUT[0]? ≠ some c :=
  generate_entry_in_range (setRangeMM construct 4000 1000) 4095 rfl (by decide) (by decide)

/-- C4: for every clip range with `mNearMM < mFarMM` and all indices
`1 ≤ i ≤ j ≤ 4095`, the entry `generate()` stores at `j` is at most the entry it
stores at `i`: intensity does not increase with the index. -/
theorem generate_non_increasing (s : DepthLookupTable) (i j : Nat)
    (hsize : s.mLUTSize = 4096) (hnf : s.mNearMM < s.mFarMM)
    (h1 : 1 ≤ i) (hij : i ≤ j) (hj : j ≤ 4095) :
    ∃ ci cj : Rgb, (generate s).mLUT[i]? = some ci ∧ (generate s).mLUT[j]? = some cj ∧
      cj.r ≤ ci.r ∧ cj.g ≤ ci.g ∧ cj.b ≤ ci.b := by
  have h := outputVal_anti 4096 s.mNearMM s.mFarMM i j (by norm_num) (le_of_lt hnf) hij
  refine ⟨Rgb.ofVal (outputVal 4096 s.mNearMM s.mFarMM i),
    Rgb.ofVal (outputVal 4096 s.mNearMM s.mFarMM j), ?_, ?_, h, h, h⟩
  · simp only [generate, hsize]
    exact lutData_get 4096 _ _ i h1 (by omega)
  · simp only [generate, hsize]
    exact lutData_get 4096 _ _ j (by omega) (by omega)

theorem generate_non_increasing_witness :
    ∃ ci cj : Rgb, (generate (setRangeMM construct 1000 4000)).mLUT[100]? = some ci ∧
      (generate (setRangeMM construct 1000 4000)).mLUT[200]? = some cj ∧
      cj.r ≤ ci.r ∧ cj.g ≤ ci.g ∧ cj.b ≤ ci.b :=
  generate_non_increasing (setRangeMM construct 1000 4000) 100 200 rfl (by decide)
    (by decide) (by decide) (by decide)

/-- C1: at the default clip range (1, 65535) the last table entry, index 4095, is
built from the depth 65355 written in `generate()`, not from 65535: the stored
entry is strictly above `epsilon`, the value the two remaps of the claim give
there. -/
theorem generate_last_index_is_depth_65355 :
    inputVal 4096 4095 = 65355 ∧
      ofMap 4095 1 4095 0 65535 true = 65535 ∧
      (generate construct).mLUT[4095]? = some (Rgb.ofVal (outputVal 4096 1 65535 4095)) ∧
      ofMap (ofMap 4095 1 4095 0 65535 true) 65535 1 epsilon 1 true = epsilon ∧
      epsilon < outputVal 4096 1 65535 4095 := by
  have hin : inputVal 4096 4095 = 65355 := by
    norm_num [inputVal, ofMap, FLT_EPSILON, abs_lt]
  refine ⟨hin, ?_, lutData_get 4096 1 65535 4095 (by norm_num) (by norm_num), ?_, ?_⟩
  · norm_num [ofMap, FLT_EPSILON, abs_lt]
  · norm_num [ofMap, FLT_EPSILON, epsilon, abs_lt]
  · rw [outputVal, hin]
    norm_num [ofMap, FLT_EPSILON, epsilon, abs_lt]

/-- C5: after `setRangeMM(1000, 4000)` index 251 stands for the depth
`250 * 65535 / 4094 ≥ 4000`, yet the entry stored there by the next `process()`
is strictly above `epsilon`, the intensity of depth 4000. -/
theorem range_1000_4000_index_251_not_clamped :
    (4000 : ℚ) ≤ (251 - 1) * 65535 / 4094 ∧
      ofMap 4000 4000 1000 epsilon 1 true = epsilon ∧
      (process (setRangeMM construct 1000 4000) ofTexture.empty).1.mLUT[251]? =
        some (Rgb.ofVal (outputVal 4096 1000 4000 251)) ∧
      epsilon < outputVal 4096 1000 4000 251 := by
  have hin : inputVal 4096 251 = 250 * 65355 / 4094 := by
    norm_num [inputVal, ofMap, FLT_EPSILON, abs_lt]
  refine ⟨by norm_num, ?_, ?_, ?_⟩
  · norm_num [ofMap, FLT_EPSILON, epsilon, abs_lt]
  · rw [(process_fields _ _).2.2.2.2]
    exact lutData_get 4096 1000 4000 251 (by norm_num) (by norm_num)
  · rw [outputVal, hin]
    norm_num [ofMap, FLT_EPSILON, epsilon, abs_lt]

/-! ## Clip range, render target and dirty flag -/

/-- C6: in every state reachable from construction by `setNearMM`, `setFarMM`,
`setRangeMM` and `process` calls the stored `mNearMM` is at least 1;
`setNearMM(v)` and `setRangeMM(v, f)` store `max(v, 1)` as `mNearMM` (so `v = 0`
stores 1), and `setFarMM(f)` and `setRangeMM(v, f)` store `f` unchanged as
`mFarMM`, also when `f` is not above the near bound. -/
theorem near_at_least_one (s : DepthLookupTable) (h : Reachable s) :
    1 ≤ s.mNearMM ∧
      (∀ v : Nat, isUShort v → (setNearMM s v).mNearMM = max v 1) ∧
      (setNearMM s 0).mNearMM = 1 ∧
      (∀ f : Nat, isUShort f → (setFarMM s f).mFarMM = f) ∧
      (∀ v f : Nat, isUShort v → isUShort f →
        (setRangeMM s v f).mNearMM = max v 1 ∧ (setRangeMM s v f).mFarMM = f) := by
  have hmax : ∀ v : Nat, (if v > 1 then v else 1) = max v 1 := by
    intro v
    split_ifs <;> omega
  refine ⟨reachable_near_pos s h, ?_, rfl, ?_, ?_⟩
  · intro v _
    exact hmax v
  · intro f _
    rfl
  · intro v f _ _
    exact ⟨hmax v, rfl⟩

theorem near_at_least_one_witness :
    1 ≤ (setRangeMM construct 0 0).mNearMM ∧
      (∀ v : Nat, isUShort v → (setNearMM (setRangeMM construct 0 0) v).mNearMM = max v 1) ∧
      (setNearMM (setRangeMM construct 0 0) 0).mNearMM = 1 ∧
      (∀ f : Nat, isUShort f → (setFarMM (setRangeMM construct 0 0) f).mFarMM = f) ∧
      (∀ v f : Nat, isUShort v → isUShort f →
        (setRangeMM (setRangeMM construct 0 0) v f).mNearMM = max v 1 ∧
          (setRangeMM (setRangeMM construct 0 0) v f).mFarMM = f) :=
  near_at_least_one (setRangeMM construct 0 0)
    (Reachable.setRangeMM construct 0 0 Reachable.construct (by decide) (by decide))

/-- C7: for every state and every input texture, after `process(input)` the
render target is allocated exactly when the input is; for an allocated input of
size `W x H` with `W, H > 0` the returned texture is the render target's texture
and has width `W` and height `H`, whatever the render target was before; for an
unallocated input the render target is released and the returned texture is
unallocated.  `process` is a total function. -/
theorem process_render_target (s : DepthLookupTable) (input : ofTexture) :
    (process s input).1.mFbo.isAllocated = input.bAllocated ∧
      (process s input).2 = (process s input).1.mFbo.getTexture ∧
      (input.bAllocated = true → 0 < input.width → 0 < input.height →
        (process s input).2.bAllocated = true ∧
          (process s input).2.width = input.width ∧
          (process s input).2.height = input.height) ∧
      (input.bAllocated = false →
        (process s input).1.mFbo.isAllocated = false ∧
          (process s input).2.bAllocated = false) := by
  have key : (process s input).2.bAllocated = input.bAllocated ∧
      (input.bAllocated = true → (process s input).2.width = input.width ∧
        (process s input).2.height = input.height) := by
    unfold process allocate
    cases hin : input.bAllocated <;> cases hd : s.mbLUTDirty <;>
      cases hf : s.mFbo.tex.bAllocated <;>
      by_cases hw : s.mFbo.tex.width = input.width <;>
      by_cases hh : s.mFbo.tex.height = input.height <;>
      simp [generate, ofFbo.isAllocated, ofFbo.getWidth, ofFbo.getHeight, ofFbo.getTexture,
        ofFbo.clear, ofFbo.allocate, ofFbo.ofClear, ofTexture.empty, hd, hf, hw, hh]
  have hret : (process s input).2 = (process s input).1.mFbo.getTexture := rfl
  refine ⟨?_, hret, ?_, ?_⟩
  · rw [← key.1, hret]
    rfl
  · intro ha _ _
    exact ⟨by rw [key.1, ha], key.2 ha⟩
  · intro ha
    have h2 : (process s input).2.bAllocated = false := by rw [key.1, ha]
    refine ⟨?_, h2⟩
    rw [← h2, hret]
    rfl

theorem process_render_target_witness :
    (process construct (ofTexture.uniform 640 480 0)).2.bAllocated = true ∧
      (process construct (ofTexture.uniform 640 480 0)).2.width = 640 ∧
      (process construct (ofTexture.uniform 640 480 0)).2.height = 480 :=
  (process_render_target construct (ofTexture.uniform 640 480 0)).2.2.1 rfl
    (by decide) (by decide)

/-- C8: with a 2 x 2 allocated depth texture whose pixels all hold the depth 2000
(stored as 2000 / 65535), the texture returned by `process()` holds 0 at pixel
(0, 0) both after `setRangeMM(1000, 4000)` and after `setRangeMM(1500, 3000)`,
although the table regenerated by that call holds a strictly positive entry at
index 125, next to the lookup position `2000 / 65535 * 4095` of that depth: the
render target is only cleared, so the output is neither non-zero nor dependent
on the clip range. -/
theorem process_output_is_cleared :
    (ofTexture.uniform 2 2 (2000 / 65535)).pixels 0 0 ≠ 0 ∧
      (process (setRangeMM construct 1000 4000)
        (ofTexture.uniform 2 2 (2000 / 65535))).2.pixels 0 0 = 0 ∧
      (process (setRangeMM construct 1500 3000)
        (ofTexture.uniform 2 2 (2000 / 65535))).2.pixels 0 0 = 0 ∧
      (process (setRangeMM construct 1000 4000)
        (ofTexture.uniform 2 2 (2000 / 65535))).1.mLUT[125]? =
          some (Rgb.ofVal (outputVal 4096 1000 4000 125)) ∧
      0 < outputVal 4096 1000 4000 125 := by
  refine ⟨?_, rfl, rfl, ?_, lt_of_lt_of_le epsilon_pos (outputVal_bounds 4096 1000 4000 125).1⟩
  · norm_num [ofTexture.uniform]
  · rw [(process_fields _ _).2.2.2.2]
    exact lutData_get 4096 1000 4000 125 (by norm_num) (by norm_num)

/-- C9: in every reachable state, each of `setNearMM`, `setFarMM` and
`setRangeMM` leaves the dirty flag set and leaves the stored table and the render
target as they were; after `process(input)`, for any input texture, the dirty
flag is clear, the clip range is the one stored before the call and the stored
table is the one `generate()` defines for it; a further `process()` call leaves
the flag clear and the stored table identical. -/
theorem dirty_flag_protocol (s : DepthLookupTable) (h : Reachable s) :
    (∀ v : Nat, (setNearMM s v).mbLUTDirty = true ∧ (setNearMM s v).mLUT = s.mLUT ∧
        (setNearMM s v).mFbo = s.mFbo) ∧
      (∀ f : Nat, (setFarMM s f).mbLUTDirty = true ∧ (setFarMM s f).mLUT = s.mLUT ∧
        (setFarMM s f).mFbo = s.mFbo) ∧
      (∀ v f : Nat, (setRangeMM s v f).mbLUTDirty = true ∧ (setRangeMM s v f).mLUT = s.mLUT ∧
        (setRangeMM s v f).mFbo = s.mFbo) ∧
      (∀ input : ofTexture,
        (process s input).1.mbLUTDirty = false ∧
          (process s input).1.mNearMM = s.mNearMM ∧
          (process s input).1.mFarMM = s.mFarMM ∧
          (process s input).1.mLUT = (generate s).mLUT ∧
          (process s input).1.mLUT = lutData 4096 s.mNearMM s.mFarMM) ∧
      (∀ input next : ofTexture,
        (process (process s input).1 next).1.mbLUTDirty = false ∧
          (process (process s input).1 next).1.mLUT = (process s input).1.mLUT) := by
  have hsize := reachable_lutSize s h
  have hclean := reachable_clean_lut s h
  have hlut : ∀ input : ofTexture,
      (process s input).1.mLUT = lutData s.mLUTSize s.mNearMM s.mFarMM := by
    intro input
    rw [(process_fields s input).2.2.2.2]
    cases hd : s.mbLUTDirty
    · simpa using hclean hd
    · simp
  refine ⟨fun v => ⟨rfl, rfl, rfl⟩, fun f => ⟨rfl, rfl, rfl⟩,
    fun v f => ⟨rfl, rfl, rfl⟩, ?_, ?_⟩
  · intro input
    obtain ⟨h1, h2, _, h4, _⟩ := process_fields s input
    refine ⟨h4, h1, h2, hlut input, ?_⟩
    rw [hlut input, hsize]
  · intro input next
    obtain ⟨_, _, _, h4, h5⟩ := process_fields (process s input).1 next
    refine ⟨h4, ?_⟩
    rw [h5, (process_fields s input).2.2.2.1]
    simp

theorem dirty_flag_protocol_witness :
    (process (setRangeMM construct 1000 4000) ofTexture.empty).1.mbLUTDirty = false ∧
      (process (setRangeMM construct 1000 4000) ofTexture.empty).1.mLUT =
        lutData 4096 1000 4000 :=
  have h := (dirty_flag_protocol (setRangeMM construct 1000 4000)
    (Reachable.setRangeMM construct 1000 4000 Reachable.construct (by decide) (by decide))).2.2.2.1
      ofTexture.empty
  ⟨h.1, h.2.2.2.2⟩

/-- C10, as the claim states it, fails: right after construction the dirty flag is
not set. -/
theorem construct_dirty_flag_not_set : ¬ (construct.mbLUTDirty = true) := by
  decide

/-- C10, amended: the constructor itself calls `generate()`, so a freshly
constructed `DepthLookupTable` has the default range (1, 65535), a clear dirty
flag and the table `generate()` defines for that range already stored; the first
`process()` call, for any input, leaves the flag clear and the table unchanged. -/
theorem construct_is_clean :
    construct.mNearMM = 1 ∧ construct.mFarMM = 65535 ∧ construct.mbLUTDirty = false ∧
      construct.mLUT = lutData 4096 1 65535 ∧ construct.mLUT.length = 4096 ∧
      (∀ input : ofTexture, (process construct input).1.mbLUTDirty = false ∧
        (process construct input).1.mLUT = construct.mLUT) := by
  refine ⟨rfl, rfl, rfl, rfl, lutData_length 4096 1 65535 (by norm_num), ?_⟩
  intro input
  obtain ⟨_, _, _, h4, h5⟩ := process_fields construct input
  refine ⟨h4, ?_⟩
  rw [h5]
  rfl

end DepthLUT
